import Mathlib

/-!
Shallow embedding of `src/scripts/main.py` (a per-page PDF → OCR pipeline):
prompt templates and `get_prompt`, the page loop of
`extract_text_and_image_from_pdf` with its sentinel-based early stop, and the
final JSON write.  External collaborators (page rendering, anchor-text
extraction, the remote model call) are modelled as an explicit record of
fallible functions; the run returns the trace of collaborator calls and of the
single file write, together with the Python function's outcome (normal return
or raised error).
-/

namespace OcrPipeline

/-- Whether `needle` occurs as a contiguous sublist of `hay`. -/
def infixAt (needle : List Char) : List Char → Bool
  | [] => needle.isEmpty
  | c :: rest => needle.isPrefixOf (c :: rest) || infixAt needle rest

/-- Python's `needle in hay` on strings: case-sensitive substring containment. -/
def pyIn (needle hay : String) : Bool :=
  infixAt needle.data hay.data

/-- Right half of Python's `str.strip`: drop trailing whitespace characters. -/
def stripRight (l : List Char) : List Char :=
  (l.reverse.dropWhile Char.isWhitespace).reverse

/-- Python's `str.strip()`: drop leading and trailing whitespace. -/
def pyStrip (s : String) : String :=
  ⟨(stripRight s.data).dropWhile Char.isWhitespace⟩

/-- The `PROMPTS_SYS` dict of `main.py`: task-type key → prompt template. -/
def PROMPTS_SYS : List (String × (String → String)) :=
  [("default", fun base_text =>
      "Below is an image of a document page along with its dimensions. " ++
      "Simply return the markdown representation of this document, presenting tables in markdown format as they naturally appear.\n" ++
      "If the document contains images, use a placeholder like dummy.png for each image.\n" ++
      "Your final output must be in JSON format with a single key `natural_text` containing the response.\n" ++
      "RAW_TEXT_START\n" ++ base_text ++ "\nRAW_TEXT_END"),
   ("structure", fun base_text =>
      "Below is an image of a document page, along with its dimensions and possibly some raw textual content previously extracted from it. " ++
      "Note that the text extraction may be incomplete or partially missing. Carefully consider both the layout and any available text to reconstruct the document accurately.\n" ++
      "Your task is to return the markdown representation of this document, presenting tables in HTML format as they naturally appear.\n" ++
      "If the document contains images or figures, analyze them and include the tag <figure>IMAGE_ANALYSIS</figure> in the appropriate location.\n" ++
      "Your final output must be in JSON format with a single key `natural_text` containing the response.\n" ++
      "RAW_TEXT_START\n" ++ base_text ++ "\nRAW_TEXT_END")]

/-- `get_prompt` of `main.py`: dict lookup with a non-raising fallback. -/
def get_prompt (prompt_name : String) : String → String :=
  match PROMPTS_SYS.lookup prompt_name with
  | some f => f
  | none => fun _ => "Invalid PROMPT_NAME provided."

/-- The early-termination sentinel of `main.py` line 128. -/
def sentinel : String := "จึงเรียน"

/-- A raised Python error: `FileNotFoundError` or any collaborator error. -/
inductive PyError where
  | fileNotFound (msg : String)
  | other (msg : String)
deriving DecidableEq, Repr

/-- The `final_output` dict written by `extract_text_and_image_from_pdf`. -/
structure RunResult where
  natural_text : String
  markdown : Bool
  task_type : String
  total_pages : Nat
  original_file_path : String
  output_json_path : String
deriving DecidableEq, Repr

/-- One observable side effect of a run: a collaborator call or the file write. -/
inductive Event where
  | render (page : Nat)
  | extract (page : Nat)
  | infer (page : Nat)
  | write (result : RunResult)
deriving DecidableEq, Repr

/-- `true` exactly on the `write` event. -/
def Event.isWrite : Event → Bool
  | .write _ => true
  | _ => false

/-- The page number an event concerns (`0` for the final write). -/
def Event.pageOf : Event → Nat
  | .render p => p
  | .extract p => p
  | .infer p => p
  | .write _ => 0

/-- The external collaborators consumed by the loop, as fallible functions:
`render_pdf_to_base64png(path, page, target_longest_image_dim)`,
`get_anchor_text(path, page, pdf_engine, target_length)`, and the model call
(taking the prompt text and the inline image data URL, returning
`response.choices[0].message.content`). -/
structure Collaborators where
  render_pdf_to_base64png : String → Nat → Nat → Except PyError String
  get_anchor_text : String → Nat → String → Nat → Except PyError String
  infer : String → String → Except PyError String

/-- The `for page_num in range(total_pages)` loop of
`extract_text_and_image_from_pdf` (lines 69–130): per page, render → extract
anchor text → build prompt → infer; append the response plus a newline to the
accumulator; stop early when the sentinel occurs in the response.  Returns the
trace of collaborator calls and either the accumulated text or the first
raised error. -/
def pageLoop (C : Collaborators) (original_file_path task_type : String) :
    Nat → Nat → String → List Event × Except PyError String
  | 0, _, text_content => ([], .ok text_content)
  | rem + 1, page_num, text_content =>
    let page := page_num + 1
    match C.render_pdf_to_base64png original_file_path page 1800 with
    | .error e => ([.render page], .error e)
    | .ok image_base64 =>
      match C.get_anchor_text original_file_path page "pdfreport" 8000 with
      | .error e => ([.render page, .extract page], .error e)
      | .ok anchor_text =>
        let prompt := get_prompt task_type anchor_text
        match C.infer prompt ("data:image/png;base64," ++ image_base64) with
        | .error e => ([.render page, .extract page, .infer page], .error e)
        | .ok text_output =>
          let text_content2 := text_content ++ text_output ++ "\n"
          if pyIn sentinel text_output then
            ([.render page, .extract page, .infer page], .ok text_content2)
          else
            let rest := pageLoop C original_file_path task_type rem (page_num + 1) text_content2
            (.render page :: .extract page :: .infer page :: rest.1, rest.2)

/-- `extract_text_and_image_from_pdf` of `main.py`.  `file_exists` is the
result of `os.path.exists(original_file_path)`; `total_pages` the result of
`get_total_pages` (an external read of the document).  Returns the event trace
and either normal completion or the raised error. -/
def extract_text_and_image_from_pdf (file_exists : Bool) (total_pages : Nat)
    (C : Collaborators) (original_file_path output_json_path : String)
    (markdown : Bool) : List Event × Except PyError Unit :=
  if file_exists then
    let task_type := "default"
    let r := pageLoop C original_file_path task_type total_pages 0 ""
    match r.2 with
    | .error e => (r.1, .error e)
    | .ok text_content =>
      let final_output : RunResult :=
        { natural_text := pyStrip text_content
          markdown := markdown
          task_type := task_type
          total_pages := total_pages
          original_file_path := original_file_path
          output_json_path := output_json_path }
      (r.1 ++ [.write final_output], .ok ())
  else
    ([], .error (.fileNotFound ("The file " ++ original_file_path ++ " does not exist.")))

/-- The Python default value of the `markdown` parameter. -/
def markdown_default : Bool := true

/-- Calling `extract_text_and_image_from_pdf` with the `markdown` argument
omitted, as Python's default parameter does. -/
def extract_text_and_image_from_pdf_default (file_exists : Bool)
    (total_pages : Nat) (C : Collaborators)
    (original_file_path output_json_path : String) :
    List Event × Except PyError Unit :=
  extract_text_and_image_from_pdf file_exists total_pages C
    original_file_path output_json_path markdown_default

/-- Collaborators that never fail: the page image, anchor text, and the model
response are pure functions. -/
def mkCollab (img anc : Nat → String) (respOf : String → String → String) :
    Collaborators where
  render_pdf_to_base64png := fun _ page _ => .ok (img page)
  get_anchor_text := fun _ page _ _ => .ok (anc page)
  infer := fun prompt image => .ok (respOf prompt image)

/-- The model response obtained for a given page under pure collaborators. -/
def pageResp (img anc : Nat → String) (respOf : String → String → String)
    (page : Nat) : String :=
  respOf (get_prompt "default" (anc page)) ("data:image/png;base64," ++ img page)

/-- The render/extract/infer call sequences for pages
`page_num + 1, …, page_num + n`, in order. -/
def callEvents : Nat → Nat → List Event
  | _, 0 => []
  | page_num, n + 1 =>
    .render (page_num + 1) :: .extract (page_num + 1) :: .infer (page_num + 1) ::
      callEvents (page_num + 1) n

/-- The list of responses for pages `page_num + 1, …, page_num + n`, in order. -/
def respList (resp : Nat → String) : Nat → Nat → List String
  | _, 0 => []
  | page_num, n + 1 => resp (page_num + 1) :: respList resp (page_num + 1) n

/-- Joining a list of strings by single newlines (no trailing newline). -/
def joinNL : List String → String
  | [] => ""
  | [a] => a
  | a :: b :: rest => a ++ "\n" ++ joinNL (b :: rest)

/-- The text accumulated by the loop over pages `page_num + 1, …, page_num + n`
when no early stop occurs: each response followed by a newline. -/
def joinResp (resp : Nat → String) : Nat → Nat → String
  | _, 0 => ""
  | page_num, n + 1 => resp (page_num + 1) ++ "\n" ++ joinResp resp (page_num + 1) n

/-! ### Helper lemmas -/

lemma pyStrip_append_newline (s : String) : pyStrip (s ++ "\n") = pyStrip s := by
  have hd : (s ++ "\n").data = s.data ++ ['\n'] := String.data_append s "\n"
  have hw : Char.isWhitespace '\n' = true := by decide
  simp [pyStrip, stripRight, hd, hw]

lemma joinResp_succ (resp : Nat → String) :
    ∀ n page_num,
      joinResp resp page_num (n + 1) = joinNL (respList resp page_num (n + 1)) ++ "\n" := by
  intro n
  induction n with
  | zero =>
    intro pn
    simp [joinResp, joinNL, respList, String.append_empty]
  | succ m ih =>
    intro pn
    rw [show joinResp resp pn (m + 1 + 1) =
          resp (pn + 1) ++ "\n" ++ joinResp resp (pn + 1) (m + 1) from rfl, ih]
    rw [show respList resp pn (m + 1 + 1) =
          resp (pn + 1) :: respList resp (pn + 1) (m + 1) from rfl]
    rw [show respList resp (pn + 1) (m + 1) =
          resp (pn + 1 + 1) :: respList resp (pn + 1 + 1) m from rfl]
    simp [joinNL, String.append_assoc]

lemma pyStrip_joinResp (resp : Nat → String) (n : Nat) :
    pyStrip (joinResp resp 0 n) = pyStrip (joinNL (respList resp 0 n)) := by
  cases n with
  | zero => rfl
  | succ m => rw [joinResp_succ, pyStrip_append_newline]

lemma pageLoop_mkCollab_step (img anc : Nat → String)
    (respOf : String → String → String) (path : String) (m page_num : Nat)
    (acc : String) :
    pageLoop (mkCollab img anc respOf) path "default" (m + 1) page_num acc =
      (if pyIn sentinel (pageResp img anc respOf (page_num + 1)) then
        ([.render (page_num + 1), .extract (page_num + 1), .infer (page_num + 1)],
         .ok (acc ++ pageResp img anc respOf (page_num + 1) ++ "\n"))
      else
        let rest := pageLoop (mkCollab img anc respOf) path "default" m
          (page_num + 1) (acc ++ pageResp img anc respOf (page_num + 1) ++ "\n")
        (.render (page_num + 1) :: .extract (page_num + 1) :: .infer (page_num + 1) :: rest.1,
         rest.2)) := rfl

lemma pageLoop_mkCollab_no_sentinel (img anc : Nat → String)
    (respOf : String → String → String) (path : String) :
    ∀ (rem page_num : Nat) (acc : String),
      (∀ p, page_num < p → p ≤ page_num + rem →
        pyIn sentinel (pageResp img anc respOf p) = false) →
      pageLoop (mkCollab img anc respOf) path "default" rem page_num acc =
        (callEvents page_num rem,
         .ok (acc ++ joinResp (pageResp img anc respOf) page_num rem)) := by
  intro rem
  induction rem with
  | zero =>
    intro pn acc _
    simp [pageLoop, callEvents, joinResp, String.append_empty]
  | succ m ih =>
    intro pn acc h
    have hfalse : pyIn sentinel (pageResp img anc respOf (pn + 1)) = false :=
      h (pn + 1) (by omega) (by omega)
    have ihh := ih (pn + 1)
      (acc ++ pageResp img anc respOf (pn + 1) ++ "\n")
      (fun p h1 h2 => h p (by omega) (by omega))
    rw [pageLoop_mkCollab_step, hfalse]
    simp only [Bool.false_eq_true, if_false, ihh, callEvents, joinResp]
    simp [String.append_assoc]

lemma pageLoop_mkCollab_sentinel (img anc : Nat → String)
    (respOf : String → String → String) (path : String) :
    ∀ (rem page_num k : Nat) (acc : String),
      page_num < k → k ≤ page_num + rem →
      pyIn sentinel (pageResp img anc respOf k) = true →
      (∀ p, page_num < p → p < k →
        pyIn sentinel (pageResp img anc respOf p) = false) →
      pageLoop (mkCollab img anc respOf) path "default" rem page_num acc =
        (callEvents page_num (k - page_num),
         .ok (acc ++ joinResp (pageResp img anc respOf) page_num (k - page_num))) := by
  intro rem
  induction rem with
  | zero =>
    intro pn k acc h1 h2 _ _
    omega
  | succ m ih =>
    intro pn k acc h1 h2 hs hlt
    rw [pageLoop_mkCollab_step]
    by_cases hk : k = pn + 1
    · subst hk
      rw [hs]
      have hone : pn + 1 - pn = 1 := by omega
      simp only [if_true, hone, callEvents, joinResp, String.append_empty]
      simp [String.append_assoc, String.append_empty]
    · have hfalse : pyIn sentinel (pageResp img anc respOf (pn + 1)) = false :=
        hlt (pn + 1) (by omega) (by omega)
      rw [hfalse]
      have ihh := ih (pn + 1) k (acc ++ pageResp img anc respOf (pn + 1) ++ "\n")
        (by omega) (by omega) hs (fun p hp1 hp2 => hlt p (by omega) hp2)
      have hk2 : k - pn = (k - (pn + 1)) + 1 := by omega
      simp only [Bool.false_eq_true, if_false, ihh, hk2, callEvents, joinResp]
      simp [String.append_assoc]

lemma mem_callEvents_pageOf {e : Event} :
    ∀ (n page_num : Nat), e ∈ callEvents page_num n →
      e.isWrite = false ∧ page_num < e.pageOf ∧ e.pageOf ≤ page_num + n := by
  intro n
  induction n with
  | zero =>
    intro pn h
    simp [callEvents] at h
  | succ m ih =>
    intro pn h
    simp only [callEvents, List.mem_cons] at h
    rcases h with h | h | h | h
    · subst h
      refine ⟨rfl, by simp only [Event.pageOf]; omega, by simp only [Event.pageOf]; omega⟩
    · subst h
      refine ⟨rfl, by simp only [Event.pageOf]; omega, by simp only [Event.pageOf]; omega⟩
    · subst h
      refine ⟨rfl, by simp only [Event.pageOf]; omega, by simp only [Event.pageOf]; omega⟩
    · have hm := ih (pn + 1) h
      exact ⟨hm.1, by omega, by omega⟩

/-! ### Claims -/

/-- **C1.** For every document with `N` pages whose per-page model responses
never contain the sentinel string, `extract_text_and_image_from_pdf` performs
exactly `N` render/extract/infer call sequences, in page order `1, 2, …, N`,
and the `natural_text` field of the persisted result equals the `N` response
texts joined by newlines and trimmed of surrounding whitespace. -/
theorem extract_processes_all_pages_in_order (N : Nat) (img anc : Nat → String)
    (respOf : String → String → String) (path out : String) (md : Bool)
    (hns : ∀ p, 1 ≤ p → p ≤ N → pyIn sentinel (pageResp img anc respOf p) = false) :
    extract_text_and_image_from_pdf true N (mkCollab img anc respOf) path out md =
      (callEvents 0 N ++
        [Event.write
          { natural_text := pyStrip (joinNL (respList (pageResp img anc respOf) 0 N))
            markdown := md
            task_type := "default"
            total_pages := N
            original_file_path := path
            output_json_path := out }],
       .ok ()) := by
  have hloop := pageLoop_mkCollab_no_sentinel img anc respOf path N 0 ""
    (fun p h1 h2 => hns p h1 (by omega))
  simp only [extract_text_and_image_from_pdf, if_true, hloop]
  rw [String.empty_append, pyStrip_joinResp]

theorem extract_processes_all_pages_in_order_witness :
    extract_text_and_image_from_pdf true 2
        (mkCollab (fun _ => "") (fun _ => "") (fun _ _ => "hello"))
        "a.pdf" "out.json" true =
      (callEvents 0 2 ++
        [Event.write
          { natural_text :=
              pyStrip (joinNL (respList
                (pageResp (fun _ => "") (fun _ => "") (fun _ _ => "hello")) 0 2))
            markdown := true
            task_type := "default"
            total_pages := 2
            original_file_path := "a.pdf"
            output_json_path := "out.json" }],
       .ok ()) :=
  extract_processes_all_pages_in_order 2 (fun _ => "") (fun _ => "")
    (fun _ _ => "hello") "a.pdf" "out.json" true
    (by intro p h1 h2; show pyIn sentinel "hello" = false; decide)

/-- **C2.** If the sentinel occurs in the model response for page `k` (with
`k ≤ N`) and in no earlier page's response, then exactly `k`
render/extract/infer call sequences occur (pages `1, …, k` in order), pages
above `k` are never rendered, extracted, or inferred, the persisted
`natural_text` is exactly the `k` responses for pages `1, …, k` joined by
newlines and trimmed, and the persisted result still reports
`total_pages = N`. -/
theorem extract_stops_at_sentinel_page (N k : Nat) (img anc : Nat → String)
    (respOf : String → String → String) (path out : String) (md : Bool)
    (hk1 : 1 ≤ k) (hk2 : k ≤ N)
    (hs : pyIn sentinel (pageResp img anc respOf k) = true)
    (hlt : ∀ p, 1 ≤ p → p < k → pyIn sentinel (pageResp img anc respOf p) = false) :
    extract_text_and_image_from_pdf true N (mkCollab img anc respOf) path out md =
      (callEvents 0 k ++
        [Event.write
          { natural_text := pyStrip (joinNL (respList (pageResp img anc respOf) 0 k))
            markdown := md
            task_type := "default"
            total_pages := N
            original_file_path := path
            output_json_path := out }],
       .ok ()) ∧
    ∀ p, k < p →
      Event.render p ∉ (extract_text_and_image_from_pdf true N
        (mkCollab img anc respOf) path out md).1 ∧
      Event.extract p ∉ (extract_text_and_image_from_pdf true N
        (mkCollab img anc respOf) path out md).1 ∧
      Event.infer p ∉ (extract_text_and_image_from_pdf true N
        (mkCollab img anc respOf) path out md).1 := by
  have hloop := pageLoop_mkCollab_sentinel img anc respOf path N 0 k ""
    (by omega) (by omega) hs (fun p hp1 hp2 => hlt p hp1 hp2)
  rw [Nat.sub_zero] at hloop
  have hmain : extract_text_and_image_from_pdf true N (mkCollab img anc respOf)
      path out md =
      (callEvents 0 k ++
        [Event.write
          { natural_text := pyStrip (joinNL (respList (pageResp img anc respOf) 0 k))
            markdown := md
            task_type := "default"
            total_pages := N
            original_file_path := path
            output_json_path := out }],
       .ok ()) := by
    simp only [extract_text_and_image_from_pdf, if_true, hloop]
    rw [String.empty_append, pyStrip_joinResp]
  refine ⟨hmain, ?_⟩
  intro p hp
  rw [hmain]
  have hnotin : ∀ (f : Nat → Event), (∀ q, (f q).pageOf = q) → (∀ q, (f q).isWrite = false) →
      f p ∉ callEvents 0 k ++
        [Event.write
          { natural_text := pyStrip (joinNL (respList (pageResp img anc respOf) 0 k))
            markdown := md
            task_type := "default"
            total_pages := N
            original_file_path := path
            output_json_path := out }] := by
    intro f hpage hwrite hmem
    rcases List.mem_append.mp hmem with hmem | hmem
    · have := mem_callEvents_pageOf k 0 hmem
      rw [hpage] at this
      omega
    · simp only [List.mem_singleton] at hmem
      have := hwrite p
      rw [hmem] at this
      simp [Event.isWrite] at this
  exact ⟨hnotin Event.render (fun _ => rfl) (fun _ => rfl),
         hnotin Event.extract (fun _ => rfl) (fun _ => rfl),
         hnotin Event.infer (fun _ => rfl) (fun _ => rfl)⟩

theorem extract_stops_at_sentinel_page_witness :
    extract_text_and_image_from_pdf true 3
        (mkCollab (fun p => if p = 2 then "B" else "A") (fun _ => "")
          (fun _ image => if image = "data:image/png;base64,B" then sentinel else "x"))
        "a.pdf" "out.json" true =
      (callEvents 0 2 ++
        [Event.write
          { natural_text :=
              pyStrip (joinNL (respList
                (pageResp (fun p => if p = 2 then "B" else "A") (fun _ => "")
                  (fun _ image =>
                    if image = "data:image/png;base64,B" then sentinel else "x")) 0 2))
            markdown := true
            task_type := "default"
            total_pages := 3
            original_file_path := "a.pdf"
            output_json_path := "out.json" }],
       .ok ()) :=
  (extract_stops_at_sentinel_page 3 2 (fun p => if p = 2 then "B" else "A")
    (fun _ => "")
    (fun _ image => if image = "data:image/png;base64,B" then sentinel else "x")
    "a.pdf" "out.json" true (by omega) (by omega)
    (by show pyIn sentinel sentinel = true; decide)
    (by
      intro p hp1 hp2
      have hp : p = 1 := by omega
      subst hp
      show pyIn sentinel "x" = false
      decide)).1

lemma pageLoop_no_write (C : Collaborators) (path tt : String) :
    ∀ (rem page_num : Nat) (acc : String) (e : Event),
      e ∈ (pageLoop C path tt rem page_num acc).1 → e.isWrite = false := by
  intro rem
  induction rem with
  | zero =>
    intro pn acc e h
    simp [pageLoop] at h
  | succ m ih =>
    intro pn acc e h
    simp only [pageLoop] at h
    cases hr : C.render_pdf_to_base64png path (pn + 1) 1800 with
    | error er =>
      rw [hr] at h
      simp only [List.mem_singleton] at h
      subst h; rfl
    | ok img64 =>
      rw [hr] at h
      dsimp only at h
      cases ha : C.get_anchor_text path (pn + 1) "pdfreport" 8000 with
      | error ea =>
        rw [ha] at h
        simp only [List.mem_cons, List.mem_singleton, List.not_mem_nil, or_false] at h
        rcases h with h | h <;> (subst h; rfl)
      | ok anchor =>
        rw [ha] at h
        dsimp only at h
        cases hi : C.infer (get_prompt tt anchor) ("data:image/png;base64," ++ img64) with
        | error eb =>
          rw [hi] at h
          simp only [List.mem_cons, List.mem_singleton, List.not_mem_nil, or_false] at h
          rcases h with h | h | h <;> (subst h; rfl)
        | ok txt =>
          rw [hi] at h
          by_cases hsent : pyIn sentinel txt = true
          · simp only [hsent, if_true, List.mem_cons, List.mem_singleton,
              List.not_mem_nil, or_false] at h
            rcases h with h | h | h <;> (subst h; rfl)
          · rw [Bool.not_eq_true] at hsent
            simp only [hsent, Bool.false_eq_true, if_false, List.mem_cons] at h
            rcases h with h | h | h | h
            · subst h; rfl
            · subst h; rfl
            · subst h; rfl
            · exact ih (pn + 1) (acc ++ txt ++ "\n") e h

lemma write_mem_run (fe : Bool) (N : Nat) (C : Collaborators)
    (path out : String) (md : Bool) (res : RunResult) :
    Event.write res ∈ (extract_text_and_image_from_pdf fe N C path out md).1 →
    ∃ text_content, (pageLoop C path "default" N 0 "").2 = .ok text_content ∧
      res = { natural_text := pyStrip text_content
              markdown := md
              task_type := "default"
              total_pages := N
              original_file_path := path
              output_json_path := out } := by
  intro h
  cases fe with
  | false =>
    simp [extract_text_and_image_from_pdf] at h
  | true =>
    simp only [extract_text_and_image_from_pdf, if_true] at h
    cases hl : (pageLoop C path "default" N 0 "").2 with
    | error e =>
      rw [hl] at h
      have := pageLoop_no_write C path "default" N 0 "" (Event.write res) h
      simp [Event.isWrite] at this
    | ok tc =>
      rw [hl] at h
      rcases List.mem_append.mp h with h | h
      · have := pageLoop_no_write C path "default" N 0 "" (Event.write res) h
        simp [Event.isWrite] at this
      · simp only [List.mem_singleton, Event.write.injEq] at h
        exact ⟨tc, rfl, h⟩

/-- **C3** (counterexample).  The claim that the task type is a run-level
toggle that can be set to `"structure"` for some run is false: no run of
`extract_text_and_image_from_pdf` ever persists a result whose `task_type` is
`"structure"`, because the source hardcodes `task_type = "default"` inside the
function (line 63) and exposes no parameter for it. -/
theorem task_type_structure_unreachable :
    ¬ ∃ (fe : Bool) (N : Nat) (C : Collaborators) (path out : String)
        (md : Bool) (res : RunResult),
      Event.write res ∈ (extract_text_and_image_from_pdf fe N C path out md).1 ∧
      res.task_type = "structure" := by
  rintro ⟨fe, N, C, path, out, md, res, hmem, htt⟩
  obtain ⟨tc, _, hres⟩ := write_mem_run fe N C path out md res hmem
  subst hres
  have hcontra : ("default" : String) = "structure" := htt
  exact absurd hcontra (by decide)

/-- **C3** (amended).  The pipeline exposes a single run-level toggle, the
boolean markdown flag; the task type is fixed to `"default"` for every run
(the `"structure"` prompt template exists in `PROMPTS_SYS` but is never
selected by the pipeline): every persisted result has
`task_type = "default"`. -/
theorem task_type_always_default (fe : Bool) (N : Nat) (C : Collaborators)
    (path out : String) (md : Bool) (res : RunResult)
    (h : Event.write res ∈ (extract_text_and_image_from_pdf fe N C path out md).1) :
    res.task_type = "default" := by
  obtain ⟨tc, _, hres⟩ := write_mem_run fe N C path out md res h
  rw [hres]

theorem task_type_always_default_witness :
    ({ natural_text := ""
       markdown := true
       task_type := "default"
       total_pages := 0
       original_file_path := "a.pdf"
       output_json_path := "o.json" } : RunResult).task_type = "default" :=
  task_type_always_default true 0
    (mkCollab (fun _ => "") (fun _ => "") (fun _ _ => "")) "a.pdf" "o.json" true
    _ (by decide)

/-- **C4.** For every non-existent source document path (the
`os.path.exists` check fails), `extract_text_and_image_from_pdf` raises a
file-not-found error before any render, extract, or infer call occurs — the
event trace is empty, so there are zero collaborator invocations and no file
write. -/
theorem extract_missing_file_no_calls (N : Nat) (C : Collaborators)
    (path out : String) (md : Bool) :
    extract_text_and_image_from_pdf false N C path out md =
      ([], .error (.fileNotFound ("The file " ++ path ++ " does not exist."))) :=
  rfl

/-- **C9.** For a document whose page count is `0`,
`extract_text_and_image_from_pdf` performs no render, extract, or infer calls
and still writes the output file once, with `natural_text` the empty string
and `total_pages = 0`. -/
theorem extract_zero_pages_writes_empty (C : Collaborators)
    (path out : String) (md : Bool) :
    extract_text_and_image_from_pdf true 0 C path out md =
      ([Event.write
          { natural_text := ""
            markdown := md
            task_type := "default"
            total_pages := 0
            original_file_path := path
            output_json_path := out }],
       .ok ()) :=
  rfl

/-- Collaborators whose page rendering always raises. -/
def failingCollab : Collaborators where
  render_pdf_to_base64png := fun _ _ _ => .error (.other "render failed")
  get_anchor_text := fun _ _ _ _ => .ok ""
  infer := fun _ _ => .ok ""

/-- **C5.** The run persists either the complete final result exactly once or
nothing at all: at most one write event ever occurs; whenever the run ends in
a raised error, no write event occurs; and a collaborator error raised inside
the page loop propagates out of `extract_text_and_image_from_pdf` unchanged
as the run's outcome. -/
theorem extract_write_once_or_nothing (fe : Bool) (N : Nat) (C : Collaborators)
    (path out : String) (md : Bool) :
    ((extract_text_and_image_from_pdf fe N C path out md).1.filter
      Event.isWrite).length ≤ 1 ∧
    (∀ e, (extract_text_and_image_from_pdf fe N C path out md).2 = .error e →
      (extract_text_and_image_from_pdf fe N C path out md).1.filter
        Event.isWrite = []) ∧
    (∀ e, fe = true → (pageLoop C path "default" N 0 "").2 = .error e →
      (extract_text_and_image_from_pdf fe N C path out md).2 = .error e) := by
  have hfilter : (pageLoop C path "default" N 0 "").1.filter Event.isWrite = [] := by
    rw [List.filter_eq_nil_iff]
    intro a ha
    rw [pageLoop_no_write C path "default" N 0 "" a ha]
    simp
  cases fe with
  | false =>
    refine ⟨by simp [extract_text_and_image_from_pdf], ?_, ?_⟩
    · intro e _
      simp [extract_text_and_image_from_pdf]
    · intro e hfe
      exact absurd hfe (by decide)
  | true =>
    cases hl : (pageLoop C path "default" N 0 "").2 with
    | error e0 =>
      have hrun : extract_text_and_image_from_pdf true N C path out md =
          ((pageLoop C path "default" N 0 "").1, .error e0) := by
        simp only [extract_text_and_image_from_pdf, if_true, hl]
      rw [hrun]
      refine ⟨by rw [hfilter]; simp, fun e _ => hfilter, ?_⟩
      intro e _ hle
      injection hle with h
      subst h
      rfl
    | ok tc =>
      have hrun : extract_text_and_image_from_pdf true N C path out md =
          ((pageLoop C path "default" N 0 "").1 ++
            [Event.write
              { natural_text := pyStrip tc
                markdown := md
                task_type := "default"
                total_pages := N
                original_file_path := path
                output_json_path := out }],
           .ok ()) := by
        simp only [extract_text_and_image_from_pdf, if_true, hl]
      rw [hrun]
      refine ⟨?_, ?_, ?_⟩
      · rw [List.filter_append, hfilter]
        simp [Event.isWrite]
      · intro e he
        cases he
      · intro e _ hle
        cases hle

theorem extract_write_once_or_nothing_witness :
    (extract_text_and_image_from_pdf true 1 failingCollab
      "a.pdf" "o.json" true).1.filter Event.isWrite = [] :=
  (extract_write_once_or_nothing true 1 failingCollab "a.pdf" "o.json" true).2.1
    (.other "render failed") rfl

/-- **C6.** For every task-type string that is neither `"default"` nor
`"structure"`, `get_prompt` does not raise (it is a total function) and its
result, applied to any raw-text input, is the fixed invalid-configuration
placeholder string, independent of the raw-text input. -/
theorem get_prompt_unknown_placeholder (tt : String)
    (h1 : tt ≠ "default") (h2 : tt ≠ "structure") :
    ∀ t : String, get_prompt tt t = "Invalid PROMPT_NAME provided." := by
  intro t
  have b1 : (tt == "default") = false := beq_eq_false_iff_ne.mpr h1
  have b2 : (tt == "structure") = false := beq_eq_false_iff_ne.mpr h2
  simp [get_prompt, PROMPTS_SYS, List.lookup, b1, b2]

theorem get_prompt_unknown_placeholder_witness :
    get_prompt "unknown_key" "abc" = "Invalid PROMPT_NAME provided." :=
  get_prompt_unknown_placeholder "unknown_key" (by decide) (by decide) "abc"

/-- **C7.** For every raw-text string `t`, the prompt produced by
`get_prompt "default"` applied to `t` and the prompt produced by
`get_prompt "structure"` applied to `t` each contain the literal markers
`RAW_TEXT_START` and `RAW_TEXT_END`, in that order, with `t` verbatim between
them: each prompt is an instruction prefix followed by
`RAW_TEXT_START`, a newline, `t`, a newline, and `RAW_TEXT_END`. -/
theorem get_prompt_embeds_raw_text_markers (t : String) :
    (∃ pre, get_prompt "default" t =
      pre ++ "RAW_TEXT_START\n" ++ t ++ "\nRAW_TEXT_END") ∧
    (∃ pre, get_prompt "structure" t =
      pre ++ "RAW_TEXT_START\n" ++ t ++ "\nRAW_TEXT_END") := by
  constructor
  · refine ⟨"Below is an image of a document page along with its dimensions. " ++
      "Simply return the markdown representation of this document, presenting tables in markdown format as they naturally appear.\n" ++
      "If the document contains images, use a placeholder like dummy.png for each image.\n" ++
      "Your final output must be in JSON format with a single key `natural_text` containing the response.\n", ?_⟩
    simp [get_prompt, PROMPTS_SYS, List.lookup, String.append_assoc]
  · refine ⟨"Below is an image of a document page, along with its dimensions and possibly some raw textual content previously extracted from it. " ++
      "Note that the text extraction may be incomplete or partially missing. Carefully consider both the layout and any available text to reconstruct the document accurately.\n" ++
      "Your task is to return the markdown representation of this document, presenting tables in HTML format as they naturally appear.\n" ++
      "If the document contains images or figures, analyze them and include the tag <figure>IMAGE_ANALYSIS</figure> in the appropriate location.\n" ++
      "Your final output must be in JSON format with a single key `natural_text` containing the response.\n", ?_⟩
    simp [get_prompt, PROMPTS_SYS, List.lookup, String.append_assoc]

/-- **C8.** If the model response for a page is the empty string, the loop
accumulates it as-is (appending only the separating newline to the
accumulator), the sentinel check finds no match, and processing continues to
the next page without raising. -/
theorem empty_response_continues (img anc : Nat → String)
    (respOf : String → String → String) (path : String)
    (rem page_num : Nat) (acc : String)
    (h : pageResp img anc respOf (page_num + 1) = "") :
    pyIn sentinel "" = false ∧
    pageLoop (mkCollab img anc respOf) path "default" (rem + 1) page_num acc =
      (Event.render (page_num + 1) :: Event.extract (page_num + 1) ::
        Event.infer (page_num + 1) ::
        (pageLoop (mkCollab img anc respOf) path "default" rem (page_num + 1)
          (acc ++ "\n")).1,
       (pageLoop (mkCollab img anc respOf) path "default" rem (page_num + 1)
          (acc ++ "\n")).2) := by
  have hempty : pyIn sentinel "" = false := by decide
  refine ⟨hempty, ?_⟩
  rw [pageLoop_mkCollab_step, h, hempty]
  simp only [Bool.false_eq_true, if_false, String.append_empty]

theorem empty_response_continues_witness :
    pyIn sentinel "" = false ∧
    pageLoop (mkCollab (fun _ => "") (fun _ => "") (fun _ _ => ""))
        "a.pdf" "default" 1 0 "" =
      (Event.render 1 :: Event.extract 1 :: Event.infer 1 ::
        (pageLoop (mkCollab (fun _ => "") (fun _ => "") (fun _ _ => ""))
          "a.pdf" "default" 0 1 ("" ++ "\n")).1,
       (pageLoop (mkCollab (fun _ => "") (fun _ => "") (fun _ _ => ""))
          "a.pdf" "default" 0 1 ("" ++ "\n")).2) :=
  empty_response_continues (fun _ => "") (fun _ => "") (fun _ _ => "")
    "a.pdf" 0 0 ""
    (by show ((fun (_ : String) (_ : String) => "") (get_prompt "default" "")
      ("data:image/png;base64," ++ "") : String) = ""; rfl)

/-- **C10.** The markdown flag is stored in the persisted result exactly as
passed by the caller for every boolean value, and when the caller omits the
`markdown` argument (modelled by `extract_text_and_image_from_pdf_default`),
the stored `markdown` field is `true`. -/
theorem markdown_flag_passthrough (fe : Bool) (N : Nat) (C : Collaborators)
    (path out : String) (md : Bool) (res : RunResult) :
    (Event.write res ∈ (extract_text_and_image_from_pdf fe N C path out md).1 →
      res.markdown = md) ∧
    markdown_default = true ∧
    (Event.write res ∈
        (extract_text_and_image_from_pdf_default fe N C path out).1 →
      res.markdown = true) := by
  refine ⟨?_, rfl, ?_⟩
  · intro h
    obtain ⟨tc, _, hres⟩ := write_mem_run fe N C path out md res h
    rw [hres]
  · intro h
    obtain ⟨tc, _, hres⟩ := write_mem_run fe N C path out markdown_default res h
    rw [hres]
    rfl

theorem markdown_flag_passthrough_witness :
    ({ natural_text := ""
       markdown := false
       task_type := "default"
       total_pages := 0
       original_file_path := "a.pdf"
       output_json_path := "o.json" } : RunResult).markdown = false :=
  (markdown_flag_passthrough true 0
    (mkCollab (fun _ => "") (fun _ => "") (fun _ _ => ""))
    "a.pdf" "o.json" false _).1 (by decide)

end OcrPipeline
